import Mathlib

/-!
# Verification of the Execution Service sandbox-pool manager

Shallow embedding of `src/execution_service/app/services/sandbox_pool.py`,
`src/execution_service/app/services/language_handlers/` and the module-level
state of `src/execution_service/app/main.py`.

Sandboxes are identified by natural numbers.  Python dictionaries become
association lists (`List (String × β)`) with in-place update, preserving
Python's insertion-order semantics.  Provider behaviour (sandbox creation,
reset success, handler outcomes) is supplied as explicit oracle arguments,
since the external E2B provider is outside the program.
-/

set_option autoImplicit false

namespace SandboxPool

/-! ## Python-dict helpers -/

/-- `d.get(k)` on a Python dict: first binding for `k`, if any. -/
def dlookup {β : Type} : List (String × β) → String → Option β
  | [], _ => none
  | (k', v) :: rest, k => if k' = k then some v else dlookup rest k

/-- `d.get(k, dflt)`. -/
def dgetD {β : Type} (d : List (String × β)) (k : String) (dflt : β) : β :=
  (dlookup d k).getD dflt

/-- `k in d`. -/
def dmem {β : Type} (d : List (String × β)) (k : String) : Bool :=
  (dlookup d k).isSome

/-- `d[k] = v`: update in place when the key exists, else append (Python
insertion order). -/
def dset {β : Type} : List (String × β) → String → β → List (String × β)
  | [], k, v => [(k, v)]
  | (k', v') :: rest, k, v =>
      if k' = k then (k', v) :: rest else (k', v') :: dset rest k v

/-- `d.pop(k, None)` / `del d[k]`: drop the binding for `k`. -/
def dremove {β : Type} : List (String × β) → String → List (String × β)
  | [], _ => []
  | (k', v') :: rest, k =>
      if k' = k then rest else (k', v') :: dremove rest k

/-! ## Configuration (`app/core/config.py`, defaults) -/

structure Settings where
  INITIAL_POOL_SIZE : Nat
  MAX_POOL_SIZE : Nat
  DEFAULT_TIMEOUT : Int
  MAX_TIMEOUT : Int
  SUPPORTED_LANGUAGES : List String
  deriving Repr

/-- The default configuration from `Settings` in `app/core/config.py`. -/
def settings : Settings :=
  { INITIAL_POOL_SIZE := 5
    MAX_POOL_SIZE := 20
    DEFAULT_TIMEOUT := 30
    MAX_TIMEOUT := 300
    SUPPORTED_LANGUAGES := ["python", "node", "bash", "c"] }

/-! ## Language handler registry (`language_handlers/__init__.py`) -/

/-- The keys of the `_language_handlers` dict: canonical languages plus the
`javascript → node` and `shell → bash` aliases. -/
def language_handlers : List String :=
  ["python", "node", "javascript", "bash", "shell", "c"]

/-- `get_language_handler` succeeds exactly when the tag is a key of the
registry; otherwise the Python code raises `HTTPException(400, ...)`. -/
def get_language_handler_exists (language : String) : Bool :=
  language_handlers.contains language

/-! ## Data model (`app/models/execution.py`) -/

/-- `ExecutionRequest`.  `files` keeps the path/content pairs in insertion
order; `timeout` is a Python `int`. -/
structure ExecutionRequest where
  execution_id : String
  user_id : String
  code : String
  language : String
  timeout : Int
  session_id : Option String
  files : Option (List (String × String))
  deriving DecidableEq, Repr

/-- Handler-level `ExecutionResult` (the Pydantic model's `session_id`
defaults to `None` and is never set by handlers). -/
structure ExecutionResult where
  output : String
  error : Option String
  exit_code : Int
  deriving DecidableEq, Repr

/-- `SessionRequest`. -/
structure SessionRequest where
  language : String
  user_id : String
  deriving DecidableEq, Repr

/-! ## Shared module-level state (`app/main.py`) -/

/-- The four module-level dictionaries of `app/main.py`: per-language idle
queues, active ephemeral sandboxes, session-bound sandboxes, and the
`user_id → [session_id]` reverse index. -/
structure SystemState where
  available : List (String × List Nat)
  active : List (String × Nat)
  sessions : List (String × Nat)
  userSessions : List (String × List String)
  deriving DecidableEq, Repr

/-! ## Pool primitives (`sandbox_pool.py`) -/

/-- `reset_sandbox` (lines 39-55): runs the wipe command, returns `True` on
success and `False` on any provider error — it catches every exception and
never raises.  `providerOk` is the oracle for the provider call. -/
def reset_sandbox (providerOk : Bool) : Bool :=
  providerOk

/-- `manage_sandbox_pool` (lines 58-77): pop the head of the language's
queue when it is non-empty, otherwise return whatever `create_sandbox`
produced (`created` is the provider oracle; `none` models creation
failure).  No capacity check appears in the source. -/
def manage_sandbox_pool (available : List (String × List Nat))
    (language : String) (created : Option Nat) :
    Option Nat × List (String × List Nat) :=
  match dgetD available language [] with
  | [] => (created, available)
  | s :: rest => (some s, dset available language rest)

/-- Repeatedly check out from one language queue with a provider that
creates nothing, collecting the issued sandboxes in order. -/
def drain : List (String × List Nat) → String → Nat → List Nat
  | _, _, 0 => []
  | available, language, n + 1 =>
    match manage_sandbox_pool available language none with
    | (some s, avail') => s :: drain avail' language n
    | (none, _) => []

/-- Result of `return_sandbox_to_pool`: the two updated dicts, and whether
`sandbox.close()` was invoked. -/
structure ReturnStep where
  active : List (String × Nat)
  available : List (String × List Nat)
  closedSandbox : Bool
  deriving DecidableEq, Repr

/-- `return_sandbox_to_pool` (lines 186-220).  When `sandbox_id` is active:
remove it, run `reset_sandbox` when `reset` is set — its Boolean result is
ignored by the source — and append the sandbox at the tail of the language
queue.  `reset_sandbox` swallows provider errors and the enqueue cannot
raise, so the `except`/close branch of the source is unreachable. -/
def return_sandbox_to_pool (sandbox_id : String) (sandbox : Nat)
    (language : String) (active : List (String × Nat))
    (available : List (String × List Nat))
    (reset : Bool) (resetProviderOk : Bool) : ReturnStep :=
  if dmem active sandbox_id then
    let active' := dremove active sandbox_id
    let _resetResult := if reset then reset_sandbox resetProviderOk else true
    let available' :=
      dset available language (dgetD available language [] ++ [sandbox])
    ⟨active', available', false⟩
  else
    ⟨active, available, false⟩

/-! ## The execution coordinator (`execute_code_in_sandbox`, lines 81-183) -/

/-- Python truthiness of `request.session_id` (`None` and `""` are falsy). -/
def strTruthy : Option String → Bool
  | none => false
  | some s => !(s == "")

/-- Oracle for the body of the `try` block once a handler exists: the
handler (and any file staging) succeeds with a result, hits
`asyncio.TimeoutError`, or raises some other exception whose `str` is
`msg`. -/
inductive HandlerOutcome where
  | ok (res : ExecutionResult)
  | timedOut
  | err (msg : String)
  deriving DecidableEq, Repr

/-- What `execute_code_in_sandbox` hands back to FastAPI: a raised
`HTTPException`, or a `200` JSON payload
`{output, error, exit_code, session_id?}`. -/
inductive ExecResponse where
  | httpError (status : Nat) (detail : String)
  | payload (output : String) (error : Option String) (exit_code : Int)
      (session_id : Option String)
  deriving DecidableEq, Repr

/-- A `return_sandbox_to_pool` call scheduled with `asyncio.create_task`
(fire-and-forget; it has not run when the response is produced). -/
structure DeferredReturn where
  sandbox_id : String
  sandbox : Nat
  language : String
  reset : Bool
  deriving DecidableEq, Repr

/-- The observable effect of one `execute_code_in_sandbox` call: the
response, the three dicts as the call leaves them, the scheduled
background returns, and the deadline passed to `asyncio.wait_for`. -/
structure ExecStep where
  response : ExecResponse
  available : List (String × List Nat)
  active : List (String × Nat)
  sessions : List (String × Nat)
  deferred : List DeferredReturn
  deadline : Int
  deriving DecidableEq, Repr

/-- The `try`/`except` block (lines 119-183).  `get_language_handler` is
called first inside `try`; for an unregistered language it raises
`HTTPException(400, ...)`, which the generic `except Exception` handler
turns into an error payload (`str` of a FastAPI `HTTPException` is
`"<status>: <detail>"`).  Both the `session_id` field of the payload (line
143) and the decision to schedule a background return (lines 147, 160,
174) test the truthiness of `request.session_id`, not which branch
resolved the sandbox.  All scheduled returns carry `reset=True` (default
at line 148, explicit at lines 167 and 181). -/
def runHandlerTry (req : ExecutionRequest) (sandbox : Nat)
    (sandbox_id : String) (available : List (String × List Nat))
    (active : List (String × Nat)) (sessions : List (String × Nat))
    (timeout : Int) (outcome : HandlerOutcome) : ExecStep :=
  let isSession := strTruthy req.session_id
  let deferredFor : List DeferredReturn :=
    if isSession then [] else [⟨sandbox_id, sandbox, req.language, true⟩]
  if get_language_handler_exists req.language then
    match outcome with
    | .ok res =>
        let sid := if isSession then req.session_id else none
        ⟨.payload res.output res.error res.exit_code sid,
          available, active, sessions, deferredFor, timeout⟩
    | .timedOut =>
        ⟨.payload "" (some "Execution timed out") (-1) none,
          available, active, sessions, deferredFor, timeout⟩
    | .err msg =>
        ⟨.payload "" (some msg) (-1) none,
          available, active, sessions, deferredFor, timeout⟩
  else
    ⟨.payload "" (some ("400: Unsupported language: " ++ req.language)) (-1)
        none,
      available, active, sessions, deferredFor, timeout⟩

/-- `execute_code_in_sandbox` (lines 81-183).  `freshId` is the
`uuid.uuid4()` value, `created` the provider oracle for
`create_sandbox`, `outcome` the oracle for the `try` body. -/
def execute_code_in_sandbox (req : ExecutionRequest)
    (available : List (String × List Nat)) (active : List (String × Nat))
    (sessions : List (String × Nat)) (freshId : String)
    (created : Option Nat) (outcome : HandlerOutcome) : ExecStep :=
  let timeout := min req.timeout settings.MAX_TIMEOUT
  let sessionHit : Option Nat :=
    if strTruthy req.session_id then
      dlookup sessions (req.session_id.getD "")
    else none
  match sessionHit with
  | some sandbox =>
      runHandlerTry req sandbox (req.session_id.getD "") available active
        sessions timeout outcome
  | none =>
      match manage_sandbox_pool available req.language created with
      | (none, avail') =>
          ⟨.httpError 503 "No sandbox available", avail', active, sessions,
            [], timeout⟩
      | (some sandbox, avail') =>
          runHandlerTry req sandbox freshId avail'
            (dset active freshId sandbox) sessions timeout outcome

/-- The `/execute` endpoint of `app/main.py`, which threads the
module-level dicts through `execute_code_in_sandbox`; `user_sessions` is
not passed to it and cannot change. -/
def execute_endpoint (req : ExecutionRequest) (st : SystemState)
    (freshId : String) (created : Option Nat) (outcome : HandlerOutcome) :
    ExecResponse × SystemState × List DeferredReturn :=
  let step :=
    execute_code_in_sandbox req st.available st.active st.sessions freshId
      created outcome
  (step.response,
    ⟨step.available, step.active, step.sessions, st.userSessions⟩,
    step.deferred)

/-! ## Session creation (`create_session_with_sandbox`, lines 223-268) -/

/-- `create_session_with_sandbox`: check out (or create) a sandbox, bind it
to a fresh `session_id`, append the session to the user's list.  `none`
as first component models the raised `HTTPException(503)`. -/
def create_session_with_sandbox (req : SessionRequest) (st : SystemState)
    (freshSid : String) (created : Option Nat) :
    Option String × SystemState :=
  match manage_sandbox_pool st.available req.language created with
  | (none, avail') => (none, { st with available := avail' })
  | (some sandbox, avail') =>
      let sessions' := dset st.sessions freshSid sandbox
      let users' :=
        dset st.userSessions req.user_id
          (dgetD st.userSessions req.user_id [] ++ [freshSid])
      (some freshSid, ⟨avail', st.active, sessions', users'⟩)

/-- The empty module state with the per-language queues initialised by
`initialize_sandbox_pool` when every pre-warm creation failed (creation
failures are skipped and the service starts regardless). -/
def emptyState : SystemState :=
  ⟨[("python", []), ("node", []), ("bash", []), ("c", [])], [], [], []⟩

/-- `n` consecutive `POST /sessions` calls for python from `emptyState`,
with fresh session ids `"s0"`, `"s1"`, ... and a provider that always
creates (fresh sandbox ids `0, 1, ...`).  Nothing is ever closed, so the
live count after `n` steps is the number of session-bound sandboxes. -/
def sessionSpam : Nat → SystemState
  | 0 => emptyState
  | n + 1 =>
      (create_session_with_sandbox ⟨"python", "u"⟩ (sessionSpam n)
        ("s" ++ toString n) (some n)).2

/-! ## Shutdown (`cleanup_sandboxes`, lines 336-361; `shutdown_event`) -/

/-- The `sandbox.close()` calls `cleanup_sandboxes` makes, in source
order: every sandbox of every language queue, then every active sandbox,
then every session sandbox. -/
def cleanup_closes (st : SystemState) : List Nat :=
  (st.available.map Prod.snd).flatten ++ st.active.map Prod.snd
    ++ st.sessions.map Prod.snd

/-- `shutdown_event` of `app/main.py`: runs `cleanup_sandboxes` over the
module dicts.  The source mutates none of the dicts, so the state after
shutdown is the state before it. -/
def shutdown_event (st : SystemState) : List Nat × SystemState :=
  (cleanup_closes st, st)

/-! ## C handler (`language_handlers/c_handler.py`) -/

/-- A completed provider process: `{stdout, stderr, exit_code}`. -/
structure ProcessResult where
  stdout : String
  stderr : String
  exit_code : Int
  deriving DecidableEq, Repr

/-- The observable effect of `execute_c`: its result, whether the compiled
program was started, and the files written into the sandbox. -/
structure CExecution where
  result : ExecutionResult
  ranProgram : Bool
  written : List (String × String)
  deriving DecidableEq, Repr

/-- `execute_c` (lines 8-47): write the source to a unique `/tmp` path,
compile with gcc, and only on compiler exit code 0 run the executable.
`fileId` is the oracle for the random `uuid` token; `compileResult` and
`runResult` are the provider oracles for the two processes. -/
def execute_c (code : String) (fileId : String)
    (compileResult runResult : ProcessResult) : CExecution :=
  let source_file := "/tmp/program_" ++ fileId ++ ".c"
  if compileResult.exit_code ≠ 0 then
    ⟨⟨"", some ("Compilation error:\n" ++ compileResult.stderr),
        compileResult.exit_code⟩,
      false, [(source_file, code)]⟩
  else
    ⟨⟨runResult.stdout, some runResult.stderr, runResult.exit_code⟩,
      true, [(source_file, code)]⟩

/-- Modelled from the spec's words, for comparison with the source's
timeout computation: "Clamp `req.timeout` to `[1, MAX_TIMEOUT]`". -/
def clamp_spec_timeout (t : Int) : Int :=
  max 1 (min t settings.MAX_TIMEOUT)

/-!
## Theorems

One theorem per claim of the specification, with supporting lemmas about
the dictionary embedding first.
-/

theorem dlookup_dset_self {β : Type} (d : List (String × β)) (k : String)
    (v : β) : dlookup (dset d k v) k = some v := by
  induction d with
  | nil => simp [dset, dlookup]
  | cons hd tl ih =>
      obtain ⟨k', v'⟩ := hd
      by_cases h : k' = k
      · simp [dset, dlookup, h]
      · simp [dset, dlookup, h, ih]

theorem dgetD_dset_self {β : Type} (d : List (String × β)) (k : String)
    (v dflt : β) : dgetD (dset d k v) k dflt = v := by
  simp [dgetD, dlookup_dset_self]

theorem dmem_dset_self {β : Type} (d : List (String × β)) (k : String)
    (v : β) : dmem (dset d k v) k = true := by
  simp [dmem, dlookup_dset_self]

theorem drain_eq_take (language : String) :
    ∀ (n : Nat) (available : List (String × List Nat)),
      drain available language n = (dgetD available language []).take n := by
  intro n
  induction n with
  | zero => intro available; simp [drain]
  | succ n ih =>
      intro available
      cases h : dgetD available language [] with
      | nil => simp [drain, manage_sandbox_pool, h]
      | cons s rest =>
          simp [drain, manage_sandbox_pool, h, ih, dgetD_dset_self]

/-- Claim C1: the spec claims the live count (created minus closed) never
exceeds `MAX_POOL_SIZE` and that checkout fails with `NoCapacity` at the
cap.  In the source, `manage_sandbox_pool` creates a sandbox on every
queue-miss without consulting any counter: 21 consecutive session
creations from an empty pool all succeed and leave 21 distinct live
sandboxes bound to sessions, strictly above `MAX_POOL_SIZE = 20`. -/
theorem live_count_exceeds_max_pool_size :
    (sessionSpam 21).sessions.map Prod.snd = List.range 21 ∧
    (sessionSpam 21).sessions.length = 21 ∧
    settings.MAX_POOL_SIZE < (sessionSpam 21).sessions.length := by
  refine ⟨by decide, by decide, by decide⟩

/-- Claim C2: the spec claims an execute with a `session_id` that is
absent from the Session Registry returns `SessionNotFound` (404) without
touching the pool.  In the source, the request instead falls through to
the ephemeral branch: the idle sandbox `4` is checked out of the python
queue into the active set, the handler runs, the stale session id is
echoed in the payload, and — because `request.session_id` is truthy — no
background return is ever scheduled, so the sandbox stays in the active
set forever. -/
theorem ghost_session_checks_out_and_leaks :
    execute_endpoint
        ⟨"e1", "u1", "print(1+1)", "python", 30, some "ghost", none⟩
        ⟨[("python", [4])], [], [("s", 3)], []⟩
        "eph1" none (.ok ⟨"2\n", none, 0⟩)
      = (.payload "2\n" none 0 (some "ghost"),
          ⟨[("python", [])], [("eph1", 4)], [("s", 3)], []⟩, []) := by
  rfl

/-- Claim C3: the spec claims an unsupported language fails with HTTP 400
before any sandbox is acquired.  In the source, the handler registry is
consulted only inside the `try` block, after `manage_sandbox_pool` has
already created sandbox `7` and registered it in the active set; the
`HTTPException(400)` raised by `get_language_handler` is swallowed by the
generic `except` and surfaces as a 200 payload with an error string, with
a background return scheduled for the freshly created sandbox. -/
theorem unsupported_language_after_sandbox_acquired :
    execute_endpoint
        ⟨"e2", "u2", "puts 1", "ruby", 30, none, none⟩
        ⟨[("python", [9])], [], [], []⟩
        "eph2" (some 7) (.ok ⟨"x", none, 0⟩)
      = (.payload "" (some "400: Unsupported language: ruby") (-1) none,
          ⟨[("python", [9])], [("eph2", 7)], [], []⟩,
          [⟨"eph2", 7, "ruby", true⟩]) := by
  rfl

/-- Claim C4: the spec claims a failed reset causes the sandbox to be
closed and discarded, never enqueued.  In the source, `reset_sandbox`
swallows the provider error and returns `False`, and
`return_sandbox_to_pool` ignores that Boolean: with the provider failing
the reset (`resetProviderOk = false`), sandbox `7` is still appended at
the tail of the python queue and `close()` is never invoked. -/
theorem reset_failure_sandbox_still_enqueued :
    reset_sandbox false = false ∧
    return_sandbox_to_pool "id0" 7 "python" [("id0", 7)] [("python", [3])]
        true false
      = ⟨[], [("python", [3, 7])], false⟩ := by
  exact ⟨rfl, rfl⟩

theorem runHandlerTry_deadline (req : ExecutionRequest) (sandbox : Nat)
    (sandbox_id : String) (available : List (String × List Nat))
    (active : List (String × Nat)) (sessions : List (String × Nat))
    (timeout : Int) (outcome : HandlerOutcome) :
    (runHandlerTry req sandbox sandbox_id available active sessions timeout
        outcome).deadline = timeout := by
  unfold runHandlerTry
  dsimp only
  split
  · cases outcome <;> rfl
  · rfl

/-- Claim C5 (amended): the deadline handed to `asyncio.wait_for` is
`min(request.timeout, MAX_TIMEOUT)` — an upper clamp only.  Values above
`MAX_TIMEOUT` are lowered to it, and any value at most `MAX_TIMEOUT`
(including zero and negatives) is used unchanged; no lower clamp to 1
exists in the source. -/
theorem execute_deadline_upper_clamp_only :
    (∀ (req : ExecutionRequest) (available : List (String × List Nat))
        (active sessions : List (String × Nat)) (freshId : String)
        (created : Option Nat) (outcome : HandlerOutcome),
        (execute_code_in_sandbox req available active sessions freshId
            created outcome).deadline
          = min req.timeout settings.MAX_TIMEOUT) ∧
    (∀ t : Int, min t settings.MAX_TIMEOUT ≤ settings.MAX_TIMEOUT) ∧
    (∀ t : Int, t ≤ settings.MAX_TIMEOUT →
        min t settings.MAX_TIMEOUT = t) := by
  refine ⟨?_, fun t => min_le_right t _, fun t ht => min_eq_left ht⟩
  intro req available active sessions freshId created outcome
  unfold execute_code_in_sandbox
  dsimp only
  split
  · exact runHandlerTry_deadline ..
  · split
    · rfl
    · exact runHandlerTry_deadline ..

theorem execute_deadline_upper_clamp_only_witness :
    (execute_code_in_sandbox ⟨"e7", "u7", "x=2", "python", 400, none, none⟩
        [("python", [2])] [] [] "eph7" none (.ok ⟨"", none, 0⟩)).deadline
      = min 400 settings.MAX_TIMEOUT ∧
    ((30 : Int) ≤ settings.MAX_TIMEOUT ∧
      min 30 settings.MAX_TIMEOUT = 30) :=
  ⟨execute_deadline_upper_clamp_only.1
      ⟨"e7", "u7", "x=2", "python", 400, none, none⟩ [("python", [2])] []
      [] "eph7" none (.ok ⟨"", none, 0⟩),
    by decide,
    execute_deadline_upper_clamp_only.2.2 30 (by decide)⟩

/-- Claim C5, refutation of the lower clamp: with `request.timeout = 0`
the source uses deadline `0`, while the spec's clamp to `[1, MAX_TIMEOUT]`
would use `1`. -/
theorem timeout_below_one_not_raised :
    (execute_code_in_sandbox ⟨"e3", "u3", "x=1", "python", 0, none, none⟩
        [("python", [2])] [] [] "eph3" none (.ok ⟨"", none, 0⟩)).deadline
      = 0 ∧
    clamp_spec_timeout 0 = 1 ∧ (0 : Int) ≠ 1 := by
  exact ⟨rfl, rfl, by decide⟩

/-- Claim C6 (amended): when a session-bound execution hits the deadline,
the caller receives the timeout payload (`error = "Execution timed out"`,
empty output, exit code `-1`, no session field and no session-gone flag),
and the shared state is completely unchanged: the session stays in the
registry with its sandbox still bound, and nothing is discarded or
scheduled for return. -/
theorem session_timeout_leaves_session_bound
    (req : ExecutionRequest) (st : SystemState) (freshId : String)
    (created : Option Nat) (sandbox : Nat)
    (hsid : strTruthy req.session_id = true)
    (hbound : dlookup st.sessions (req.session_id.getD "") = some sandbox)
    (hlang : get_language_handler_exists req.language = true) :
    execute_endpoint req st freshId created .timedOut
      = (.payload "" (some "Execution timed out") (-1) none, st, []) := by
  unfold execute_endpoint execute_code_in_sandbox runHandlerTry
  simp [hsid, hbound, hlang]

theorem session_timeout_leaves_session_bound_witness :
    execute_endpoint ⟨"e4", "u4", "while True: pass", "python", 5,
        some "s", none⟩
      ⟨[("python", [])], [], [("s", 5)], []⟩ "f4" none .timedOut
      = (.payload "" (some "Execution timed out") (-1) none,
          ⟨[("python", [])], [], [("s", 5)], []⟩, []) :=
  session_timeout_leaves_session_bound _ _ "f4" none 5 (by decide)
    (by decide) (by decide)

/-- Claim C6, refutation: the spec claims the timed-out session is
removed from the Session Registry and its sandbox discarded; in the
source the registry still maps `"s"` to sandbox `5` afterwards and no
return or discard is scheduled. -/
theorem session_timeout_session_not_removed :
    dlookup (execute_endpoint
        ⟨"e5", "u5", "while True: pass", "python", 5, some "s", none⟩
        ⟨[("python", [])], [], [("s", 5)], []⟩ "f5" none
        .timedOut).2.1.sessions "s" = some 5 ∧
    ¬ (dlookup (execute_endpoint
        ⟨"e5", "u5", "while True: pass", "python", 5, some "s", none⟩
        ⟨[("python", [])], [], [("s", 5)], []⟩ "f5" none
        .timedOut).2.1.sessions "s" = none) ∧
    (execute_endpoint
        ⟨"e5", "u5", "while True: pass", "python", 5, some "s", none⟩
        ⟨[("python", [])], [], [("s", 5)], []⟩ "f5" none
        .timedOut).2.2 = [] := by
  refine ⟨rfl, by decide, rfl⟩

/-- Claim C7: per-language queues are FIFO.  Checkout, with any provider
behaviour, removes exactly the head of a non-empty queue; repeated
checkouts issue the queue in its stored order (so a sandbox ahead in the
queue — released earlier — is always re-issued first); and a successful
return appends the sandbox at the tail of its language's queue. -/
theorem pool_queue_fifo :
    (∀ (available : List (String × List Nat)) (language : String)
        (s : Nat) (rest : List Nat) (created : Option Nat),
        dgetD available language [] = s :: rest →
        manage_sandbox_pool available language created
          = (some s, dset available language rest)) ∧
    (∀ (available : List (String × List Nat)) (language : String)
        (n : Nat),
        drain available language n = (dgetD available language []).take n) ∧
    (∀ (sid : String) (sb : Nat) (language : String)
        (active : List (String × Nat))
        (available : List (String × List Nat)) (resetOk : Bool),
        dgetD (return_sandbox_to_pool sid sb language (dset active sid sb)
            available true resetOk).available language []
          = dgetD available language [] ++ [sb]) := by
  refine ⟨?_, fun available language n => drain_eq_take language n available,
    ?_⟩
  · intro available language s rest created h
    unfold manage_sandbox_pool
    rw [h]
  · intro sid sb language active available resetOk
    unfold return_sandbox_to_pool
    simp [dmem_dset_self, dgetD_dset_self]

theorem pool_queue_fifo_witness :
    manage_sandbox_pool [("python", [4, 5])] "python" none
      = (some 4, [("python", [5])]) :=
  pool_queue_fifo.1 [("python", [4, 5])] "python" 4 [5] none (by decide)

/-- Claim C8 (amended): one run of shutdown closes each sandbox once per
occurrence across the Pool, the Active Ephemeral Set, and the Session
Registry (so exactly once each while those collections are disjoint and
duplicate-free); but `cleanup_sandboxes` leaves all three registries
populated, so shutdown is not idempotent — a second shutdown issues the
very same close calls again. -/
theorem cleanup_closes_each_once_and_recloses :
    ∀ st : SystemState,
      (∀ sandbox : Nat,
        (shutdown_event st).1.count sandbox
          = ((st.available.map Prod.snd).flatten).count sandbox
            + (st.active.map Prod.snd).count sandbox
            + (st.sessions.map Prod.snd).count sandbox) ∧
      (shutdown_event (shutdown_event st).2).1 = (shutdown_event st).1 := by
  intro st
  refine ⟨fun sandbox => ?_, rfl⟩
  simp [shutdown_event, cleanup_closes, List.count_append, Nat.add_assoc]

/-- Claim C8, refutation of idempotence: from a state holding the single
session sandbox `5`, the first shutdown closes `[5]` and a second
shutdown on the resulting state closes `[5]` again — not the empty list
the claim requires. -/
theorem double_shutdown_closes_again :
    (shutdown_event ⟨[("python", [])], [], [("s", 5)], []⟩).1 = [5] ∧
    (shutdown_event
        (shutdown_event ⟨[("python", [])], [], [("s", 5)], []⟩).2).1
      = [5] ∧
    ([5] : List Nat) ≠ [] := by
  exact ⟨rfl, rfl, by decide⟩

/-- Claim C9: when the gcc step exits non-zero, `execute_c` returns empty
stdout, stderr equal to the compiler output behind the
`"Compilation error:"` marker (a newline separates marker and compiler
output, so the error string begins with the marker), and the compiler's
exit code; the compiled program is never started. -/
theorem c_compilation_failure_result (code fileId : String)
    (compileResult runResult : ProcessResult)
    (h : compileResult.exit_code ≠ 0) :
    execute_c code fileId compileResult runResult
      = ⟨⟨"", some ("Compilation error:\n" ++ compileResult.stderr),
            compileResult.exit_code⟩, false,
          [("/tmp/program_" ++ fileId ++ ".c", code)]⟩ ∧
    ∃ rest, "Compilation error:\n" ++ compileResult.stderr
        = "Compilation error:" ++ rest := by
  constructor
  · unfold execute_c
    simp [h]
  · refine ⟨"\n" ++ compileResult.stderr, ?_⟩
    have h1 : ("Compilation error:\n" : String)
        = "Compilation error:" ++ "\n" := rfl
    rw [h1, String.append_assoc]

theorem c_compilation_failure_result_witness :
    execute_c "int main(){ return x; }" "ab12cd34"
        ⟨"", "error: x undeclared", 1⟩ ⟨"", "", 0⟩
      = ⟨⟨"", some "Compilation error:\nerror: x undeclared", 1⟩, false,
          [("/tmp/program_ab12cd34.c", "int main(){ return x; }")]⟩ :=
  (c_compilation_failure_result "int main(){ return x; }" "ab12cd34"
    ⟨"", "error: x undeclared", 1⟩ ⟨"", "", 0⟩ (by decide)).1

/-- Claim C10: a successful execute on a registered session is a pure
read of the shared state: the response carries the handler's result and
the session id, while the idle queues, active set, session registry and
user reverse index come back exactly as they were, no background return
is scheduled, and the sandbox is still bound to the same session. -/
theorem session_execute_success_frame
    (req : ExecutionRequest) (st : SystemState) (freshId : String)
    (created : Option Nat) (res : ExecutionResult) (sandbox : Nat)
    (hsid : strTruthy req.session_id = true)
    (hbound : dlookup st.sessions (req.session_id.getD "") = some sandbox)
    (hlang : get_language_handler_exists req.language = true) :
    execute_endpoint req st freshId created (.ok res)
      = (.payload res.output res.error res.exit_code req.session_id,
          st, []) ∧
    dlookup (execute_endpoint req st freshId created
        (.ok res)).2.1.sessions (req.session_id.getD "")
      = some sandbox := by
  have hmain : execute_endpoint req st freshId created (.ok res)
      = (.payload res.output res.error res.exit_code req.session_id,
          st, []) := by
    unfold execute_endpoint execute_code_in_sandbox runHandlerTry
    simp [hsid, hbound, hlang]
  refine ⟨hmain, ?_⟩
  rw [hmain]
  exact hbound

theorem session_execute_success_frame_witness :
    execute_endpoint ⟨"e6", "u6", "x=5", "python", 30, some "s", none⟩
        ⟨[("python", [1])], [], [("s", 8)], [("u6", ["s"])]⟩ "f6" none
        (.ok ⟨"", none, 0⟩)
      = (.payload "" none 0 (some "s"),
          ⟨[("python", [1])], [], [("s", 8)], [("u6", ["s"])]⟩, []) :=
  (session_execute_success_frame
    ⟨"e6", "u6", "x=5", "python", 30, some "s", none⟩
    ⟨[("python", [1])], [], [("s", 8)], [("u6", ["s"])]⟩ "f6" none
    ⟨"", none, 0⟩ 8 (by decide) (by decide) (by decide)).1

end SandboxPool
